import Mathlib

/-!
Shallow embedding of `src/FlaskAPI.py` (NewsWhizz backend).

Modelling conventions, stated once:

* JSON string fields read through Python `dict.get(k)` (no default) are
  `Option String`: `none` stands for "key absent or value null" — the two are
  indistinguishable through `.get(k)`.  Fields where absent and null behave
  differently are three-state `Option (Option _)` (`none` = key absent,
  `some none` = JSON null): `title`, read through `.get(k, default)` and also
  through `d[k]` subscription, and `source` / `source.name`, where
  `article.get("source", {})` substitutes `{}` only for an absent key and a
  JSON-null source then raises `AttributeError` on the chained `.get`.
* Python truthiness on such values: `None` and `""` are falsy.
* Each outbound HTTP call is abstracted by an oracle value supplied as an
  argument: `Except String r` where `.error e` means the call (or the JSON
  parse of its response) raised an exception whose `str` is `e`, and `.ok`
  carries the decoded response.  The embedding of a handler is a total
  function of the request and the oracles; where the Python code lets an
  exception escape the handler, the embedding returns `Except.error`.
* Werkzeug `response.call_on_close` callbacks are carried structurally on the
  response (`AudioResponse.onClose`); the framework contract is that they run
  exactly once when the response body stream is closed (normal completion or
  transport failure alike).  A file system is a `List String` of paths.
-/

namespace NewsWhizz

/-- Decidable equality for `Except`, used to evaluate concrete runs. -/
instance {ε α : Type} [DecidableEq ε] [DecidableEq α] : DecidableEq (Except ε α) := fun a b =>
  match a, b with
  | .error e, .error f =>
    if h : e = f then .isTrue (by rw [h]) else .isFalse (fun hc => h (by cases hc; rfl))
  | .ok x, .ok y =>
    if h : x = y then .isTrue (by rw [h]) else .isFalse (fun hc => h (by cases hc; rfl))
  | .error _, .ok _ => .isFalse (fun hc => Except.noConfusion hc)
  | .ok _, .error _ => .isFalse (fun hc => Except.noConfusion hc)

/-- Python truthiness of a `str`-or-`None` value: `None` and `""` are falsy. -/
def pyTruthy : Option String → Bool
  | none => false
  | some s => !(s == "")

/-- Python `x or y` on `str`-or-`None` values: `y` when `x` is falsy. -/
def pyOr (x y : Option String) : Option String :=
  if pyTruthy x then x else y

/-- Python `str()` rendering of a `str`-or-`None` value, as f-strings do. -/
def pyStr : Option String → String
  | none => "None"
  | some s => s

/-- ASCII whitespace, for the stripping `int(s)` performs. -/
def isPySpace (c : Char) : Bool :=
  c == ' ' || c == '\t' || c == '\n' || c == '\r'

/-- Reads a non-empty run of decimal digits as a number; `none` otherwise. -/
def pyDigitsAux : List Char → Nat → Option Nat
  | [], acc => some acc
  | c :: cs, acc =>
    if c.isDigit then pyDigitsAux cs (acc * 10 + (c.toNat - 48)) else none

/-- Decimal digits to a value, requiring at least one digit. -/
def pyDigits : List Char → Option Nat
  | [] => none
  | l => pyDigitsAux l 0

/-- Python `int(s)` on a string: strips surrounding whitespace, then an
optional sign followed by decimal digits; `none` models the `ValueError`
raised otherwise.  (Underscore separators and non-ASCII digits and spaces,
which CPython also accepts, are outside the model.) -/
def pyInt (s : String) : Option Int :=
  let cs := ((s.data.dropWhile isPySpace).reverse.dropWhile isPySpace).reverse
  match cs with
  | '-' :: rest => (pyDigits rest).map (fun n => -(n : Int))
  | '+' :: rest => (pyDigits rest).map (fun n => (n : Int))
  | rest => (pyDigits rest).map (fun n => (n : Int))

/-- The `"source"` sub-object of a news article: `{"name": ...}`;
`name = none` is the key absent, `some none` a JSON-null name. -/
structure SourceObj where
  name : Option (Option String)
  deriving DecidableEq

/-- A news article record as the news API returns it, restricted to the keys
`FlaskAPI.py` reads.  `title` distinguishes key-absent (`none`) from JSON null
(`some none`) because `daily_briefing` subscripts it (`a["title"]`, raising
`KeyError` when absent) while `get_news` reads it with a default.  `source`
makes the same distinction because `article.get("source", {})` yields the
empty dict only for an absent key; a JSON-null source is returned as `None`
and the chained `.get("name", "Unknown")` then raises `AttributeError`. -/
structure Article where
  title : Option (Option String)
  description : Option String
  content : Option String
  source : Option (Option SourceObj)
  url : Option String
  urlToImage : Option String
  publishedAt : Option String
  deriving DecidableEq

/-- A decoded newsapi.org response body, restricted to the keys read:
`data.get("status")` and `data.get("articles")`.  `articles = none` models the
key absent (or null). -/
structure NewsApiResponse where
  status : Option String
  articles : Option (List Article)
  deriving DecidableEq

/-- Oracles for the two HTTP calls `fetch_news` can issue: the top-headlines
request and the `/everything` fallback request.  `.error e` models
`requests.get` or `.json()` raising with message `e`. -/
structure NewsOracle where
  primary : Except String NewsApiResponse
  fallback : Except String NewsApiResponse

/-- One outbound news-API request, with the query parameters the code
interpolates into the URL. -/
inductive NewsCall
  | primaryCall (country category : String) (pageSize : Int)
  | fallbackCall (q language : String) (pageSize : Int)
  deriving DecidableEq

/-- The guard `data.get("status") == "ok" and data.get("articles")` of
`fetch_news` (line 44): status equals `"ok"` and the articles list is present
and non-empty. -/
def primary_good (d : NewsApiResponse) : Bool :=
  d.status == some "ok" &&
    (match d.articles with
     | none => false
     | some l => !l.isEmpty)

/-- The `try` block of `fetch_news` (lines 42-55), with the exception
propagating: `.error e` is the exception that reaches the `except` handler.
Paired with the trace of HTTP calls issued, in order. -/
def fetch_news_try (category region : String) (limit : Int) (o : NewsOracle) :
    Except String (List Article) × List NewsCall :=
  let pcall := NewsCall.primaryCall region category limit
  match o.primary with
  | .error e => (.error e, [pcall])
  | .ok d =>
    if primary_good d then
      (.ok (d.articles.getD []), [pcall])
    else
      let fcall := NewsCall.fallbackCall (category ++ " news") "en" limit
      match o.fallback with
      | .error e => (.error e, [pcall, fcall])
      | .ok d2 => (.ok (d2.articles.getD []), [pcall, fcall])

/-- `fetch_news(category, region, limit)` (lines 36-58): the `try` block with
its `except` handler of lines 56-58, which logs the exception and returns
`[]`.  The embedding is therefore total — a plain `List Article`, never an
exception. -/
def fetch_news (category region : String) (limit : Int) (o : NewsOracle) :
    List Article × List NewsCall :=
  let r := fetch_news_try category region limit o
  ((match r.1 with
    | .error _ => []
    | .ok l => l), r.2)

/-- One choice of the chat-completion response: `message["content"]`, `none`
modelling the key absent. -/
structure ChatMessage where
  content : Option String
  deriving DecidableEq

/-- A decoded chat-completion response: its `choices` list. -/
structure ChatResponse where
  choices : List ChatMessage
  deriving DecidableEq

/-- The oracle for the chat-completion API: from the prompt sent to the
outcome of `openai.ChatCompletion.create` (`.error e` = raised, message `e`). -/
def ChatOracle := String → Except String ChatResponse

/-- The f-string prompt template of `summarize_article` (lines 62-70),
including its literal indentation and surrounding newlines. -/
def summarize_prompt (article_text : Option String) (language : String) : String :=
  "\n    Summarize the following news article into:\n    1. A short paragraph of 2–3 complete sentences.\n    2. Two bullet points highlighting the most important details.\n\n    The summary must be in " ++ language ++
    ".\n\n    Article: " ++ pyStr article_text ++ "\n    "

/-- `summarize_article(article_text, language)` (lines 61-82).  The extraction
`response.choices[0].message["content"].strip()` happens inside the `try`, so
an empty `choices` list (Python `IndexError`) or a missing `content` key
(Python `KeyError`) also lands in the `except` branch; the embedded error
detail is then Python's exception text for those cases. -/
def summarize_article (article_text : Option String) (language : String)
    (chat : ChatOracle) : String :=
  match chat (summarize_prompt article_text language) with
  | .error e => "⚠️ Error generating summary: " ++ e
  | .ok r =>
    match r.choices.head? with
    | none => "⚠️ Error generating summary: list index out of range"
    | some m =>
      match m.content with
      | none => "⚠️ Error generating summary: content"
      | some t => t.trim

/-- `LANG_MAP = {"English": "en", "Tamil": "ta", "Hindi": "hi"}` (line 33). -/
def LANG_MAP : List (String × String) :=
  [("English", "en"), ("Tamil", "ta"), ("Hindi", "hi")]

/-- Python `LANG_MAP.get(language, default)`. -/
def langMapGet (language default : String) : String :=
  match LANG_MAP.find? (fun p => p.1 == language) with
  | none => default
  | some p => p.2

/-- Python `language in LANG_MAP`. -/
def langMapHas (language : String) : Bool :=
  (LANG_MAP.find? (fun p => p.1 == language)).isSome

/-- `valid_categories` (line 113). -/
def valid_categories : List String :=
  ["general", "business", "technology", "sports", "entertainment", "science", "health"]

/-- The query parameters of a `GET /news` request, each `none` when absent.
`limit` stays a raw string: the code converts it with `int(...)` itself. -/
structure NewsArgs where
  category : Option String
  region : Option String
  language : Option String
  limit : Option String
  deriving DecidableEq

/-- One entry of the `articles` array that `get_news` serializes
(lines 132-141). -/
structure ProcessedArticle where
  id : String
  title : Option String
  source : Option String
  summary : String
  sentiment : String
  url : Option String
  image : Option String
  publishedAt : Option String
  deriving DecidableEq

/-- The JSON body of a `/news` response: an error object, the explicit
no-news object (`{"message": "No news found", "articles": []}`), or the full
listing. -/
inductive NewsResp
  | err (msg : String)
  | noNews
  | listing (region category language : String) (total : Nat)
      (articles : List ProcessedArticle)
  deriving DecidableEq

/-- Length of the `articles` array of a `/news` response body (the error body
carries no array; count 0). -/
def NewsResp.articlesCount : NewsResp → Nat
  | .err _ => 0
  | .noNews => 0
  | .listing _ _ _ _ articles => articles.length

/-- `content = article.get("description") or article.get("content") or title`
with `title = article.get("title", "Untitled")` (lines 126-128 of
`get_news`). -/
def news_content (a : Article) : Option String :=
  pyOr a.description (pyOr a.content (a.title.getD (some "Untitled")))

/-- `article.get("source", {}).get("name", "Unknown")` (line 127).  An
absent `source` key gives `{}`, whose `.get` yields `"Unknown"`; a JSON-null
`source` gives `None`, whose `.get` raises `AttributeError` (caught only by
the handler's broad `except` at line 151); a present object yields its name,
`"Unknown"` when the `name` key is absent, Python `None` when it is null. -/
def source_name (a : Article) : Except String (Option String) :=
  match a.source with
  | none => .ok (some "Unknown")
  | some none => .error "\x27NoneType\x27 object has no attribute \x27get\x27"
  | some (some s) => .ok (s.name.getD (some "Unknown"))

/-- One iteration of the `for article in articles` loop of `get_news`
(lines 125-141): `ids i` stands for the `str(uuid.uuid4())` drawn for the
`i`-th article.  The `source` read at line 127 can raise (null source), in
which case the later statements of the iteration never run. -/
def process_article (language : String) (chat : ChatOracle) (ids : Nat → String)
    (i : Nat) (a : Article) : Except String ProcessedArticle :=
  match source_name a with
  | .error e => .error e
  | .ok source =>
    .ok { id := ids i
          title := a.title.getD (some "Untitled")
          source := source
          summary := summarize_article (news_content a) language chat
          sentiment := "Neutral"
          url := a.url
          image := a.urlToImage
          publishedAt := a.publishedAt }

/-- The whole `for` loop, left to right; the first exception aborts it and
propagates to the handler's `except`. -/
def process_articles (language : String) (chat : ChatOracle) (ids : Nat → String) :
    List (Nat × Article) → Except String (List ProcessedArticle)
  | [] => .ok []
  | p :: rest =>
    match process_article language chat ids p.1 p.2 with
    | .error e => .error e
    | .ok q =>
      match process_articles language chat ids rest with
      | .error e => .error e
      | .ok qs => .ok (q :: qs)

/-- All oracles `get_news` consumes: the two news HTTP calls, the
chat-completion API, and the uuid generator. -/
structure GetNewsOracle where
  news : NewsOracle
  chat : ChatOracle
  ids : Nat → String

/-- `int(request.args.get("limit", 5))` (line 111): an absent parameter gives
the `int` default 5; a present one goes through `int(str)`, whose
`ValueError` is `none`. -/
def parse_limit (args : NewsArgs) : Option Int :=
  match args.limit with
  | none => some 5
  | some s => pyInt s

/-- The `/news` handler `get_news` (lines 105-152): returns the JSON body and
the HTTP status code.  The whole body sits in `try/except`, so the `int(...)`
conversion of `limit` — executed at line 111, before the category and
language checks — surfaces as a 500 with the `ValueError` text when the
parameter does not parse, and an `AttributeError` from a null `source` in
the processing loop (line 127) surfaces as a 500 likewise. -/
def get_news (args : NewsArgs) (o : GetNewsOracle) : NewsResp × Nat :=
  let category := args.category.getD "general"
  let region := args.region.getD "in"
  let language := args.language.getD "English"
  match parse_limit args with
  | none =>
    (.err ("invalid literal for int() with base 10: " ++ args.limit.getD ""), 500)
  | some limit =>
    if !(valid_categories.contains category) then
      (.err "Invalid category", 400)
    else if !(langMapHas language) then
      (.err "Unsupported language", 400)
    else
      let articles := (fetch_news category region limit o.news).1
      if articles.isEmpty then
        (.noNews, 200)
      else
        match process_articles language o.chat o.ids articles.enum with
        | .error e => (.err e, 500)
        | .ok processed =>
          (.listing region category language processed.length processed, 200)

/-- `os.path.basename` on the forward-slash paths the model uses. -/
def os_path_basename (p : String) : String :=
  (p.splitOn "/").getLastD p

/-- The registered `call_on_close` cleanup (lines 176-180 and 216-220):
`os.remove(path)` with every exception swallowed by the bare `except: pass` —
so a present file is deleted and a missing one leaves the file system
unchanged, which `filter` models in one stroke. -/
def cleanup_close (path : String) (fs : List String) : List String :=
  fs.filter (fun q => !(q == path))

/-- An audio response: the temp-file path served, the one custom header, and
the composed `call_on_close` callbacks as a file-system transformer run when
the body stream closes. -/
structure AudioResponse where
  path : String
  headerName : String
  headerValue : String
  onClose : List String → List String

/-- The parsed JSON body of a `POST /tts` request; `text = none` models the
key absent or null. -/
structure TtsBody where
  text : Option String
  language : Option String

/-- The oracle for `generate_tts` (lines 85-95): from (text, lang_code) to
the temp-file path, or `none` when synthesis failed (the function catches its
own exceptions and returns `None`). -/
def TtsOracle := String → String → Option String

/-- The body of a `/tts` response: a JSON error object or the audio file. -/
inductive TtsResp
  | err (msg : String)
  | audio (r : AudioResponse)

/-- The `/tts` handler `get_tts` (lines 155-182). -/
def get_tts (data : TtsBody) (tts : TtsOracle) : TtsResp × Nat :=
  let text := data.text
  let language := data.language.getD "English"
  if !(pyTruthy text) then
    (.err "Missing \x27text\x27 in request", 400)
  else
    let lang_code := langMapGet language "en"
    match tts (pyStr text) lang_code with
    | none => (.err "TTS generation failed", 500)
    | some temp_file_path =>
      (.audio { path := temp_file_path
                headerName := "X-Audio-File"
                headerValue := os_path_basename temp_file_path
                onClose := cleanup_close temp_file_path }, 200)

/-- The parsed JSON body of a `POST /briefing` request.  `limit` is used
as-is (no `int(...)` here, line 191), modelled as a JSON number. -/
structure BriefBody where
  category : Option String
  region : Option String
  language : Option String
  limit : Option Int

/-- All oracles `daily_briefing` consumes. -/
structure BriefOracle where
  news : NewsOracle
  chat : ChatOracle
  tts : TtsOracle

/-- The body of a `/briefing` response. -/
inductive BriefResp
  | err (msg : String)
  | audio (r : AudioResponse)

/-- What `daily_briefing` did on the way: the arguments of its (always
issued) `fetch_news` call, and every `generate_tts` call as (text, lang_code). -/
structure BriefTrace where
  fetchCategory : String
  fetchRegion : String
  fetchLimit : Int
  ttsCalls : List (String × String)

/-- `a.get("description") or a.get("content") or a["title"]` (line 199 of
`daily_briefing`).  Python evaluates `a["title"]` only when the first two are
falsy; a record without the `title` key then raises `KeyError`, which
`daily_briefing` does not catch. -/
def briefing_content (a : Article) : Except String (Option String) :=
  if pyTruthy a.description then .ok a.description
  else if pyTruthy a.content then .ok a.content
  else
    match a.title with
    | none => .error "KeyError: title"
    | some t => .ok t

/-- The list comprehension of lines 197-203, left to right; the first
`KeyError` aborts the whole comprehension. -/
def briefing_summaries (language : String) (chat : ChatOracle) :
    List Article → Except String (List String)
  | [] => .ok []
  | a :: rest =>
    match briefing_content a with
    | .error e => .error e
    | .ok c =>
      let s := summarize_article c language chat
      match briefing_summaries language chat rest with
      | .error e => .error e
      | .ok ss => .ok (s :: ss)

/-- The `/briefing` handler `daily_briefing` (lines 185-222): the response
(`Except.error` = an uncaught Python exception escaping to the framework)
paired with the trace of external calls made before the outcome. -/
def daily_briefing (data : BriefBody) (o : BriefOracle) :
    Except String (BriefResp × Nat) × BriefTrace :=
  let category := data.category.getD "general"
  let region := data.region.getD "in"
  let language := data.language.getD "English"
  let limit := data.limit.getD 5
  let articles := (fetch_news category region limit o.news).1
  let tr : BriefTrace := ⟨category, region, limit, []⟩
  if articles.isEmpty then
    (.ok (.err "No articles available for briefing", 400), tr)
  else
    match briefing_summaries language o.chat articles with
    | .error e => (.error e, tr)
    | .ok summaries =>
      let combined_summary := String.intercalate " " summaries
      let intro :=
        "Good morning! Here are today\x27s top " ++ category ++
          " news from " ++ region ++ ". "
      let full_text := intro ++ combined_summary
      let lang_code := langMapGet language "en"
      let tr2 : BriefTrace := ⟨category, region, limit, [(full_text, lang_code)]⟩
      match o.tts full_text lang_code with
      | none => (.ok (.err "Failed to generate audio briefing", 500), tr2)
      | some temp_file_path =>
        (.ok (.audio { path := temp_file_path
                       headerName := "X-Audio-Type"
                       headerValue := "daily-briefing"
                       onClose := cleanup_close temp_file_path }, 200), tr2)

/-! ### Theorems -/

/-- `primary_good` lifted to the oracle: the primary call succeeded and its
response passes the line-44 guard. -/
def primaryGoodB (o : NewsOracle) : Bool :=
  match o.primary with
  | .error _ => false
  | .ok d => primary_good d

/-- C1: For every call to `fetch_news`, the fallback search is issued exactly
when the primary top-headlines response's status field is not `"ok"` or its
articles list is empty or absent; the fallback call uses the literal query
`"<category> news"`, an English language filter, and the same page size as
the primary call, and its articles list (possibly empty) is returned as-is
with no further fallback. -/
theorem fetch_news_fallback_policy (category region : String) (limit : Int)
    (o : NewsOracle) (d d2 : NewsApiResponse)
    (hp : o.primary = .ok d) (hf : o.fallback = .ok d2) :
    (primary_good d = false ↔
      (fetch_news category region limit o).2 =
        [NewsCall.primaryCall region category limit,
         NewsCall.fallbackCall (category ++ " news") "en" limit])
    ∧ (primary_good d = true →
        (fetch_news category region limit o).2 =
          [NewsCall.primaryCall region category limit])
    ∧ (primary_good d = false →
        (fetch_news category region limit o).1 = d2.articles.getD []) := by
  cases hg : primary_good d <;>
    simp [fetch_news, fetch_news_try, hp, hf, hg]

/-- Concrete run of `fetch_news_fallback_policy`: a primary response whose
status is `"error"` triggers the fallback with query `"sports news"`,
language `"en"`, page size 3, and the fallback articles come back as-is. -/
def fallbackOracle : NewsOracle :=
  { primary := .ok { status := some "error", articles := none }
    fallback := .ok { status := some "ok", articles := some [] } }

theorem fetch_news_fallback_policy_witness :
    fallbackOracle.primary = .ok { status := some "error", articles := none }
    ∧ fallbackOracle.fallback = .ok { status := some "ok", articles := some [] }
    ∧ primary_good { status := some "error", articles := none } = false
    ∧ (fetch_news "sports" "in" 3 fallbackOracle).2 =
        [NewsCall.primaryCall "in" "sports" 3,
         NewsCall.fallbackCall ("sports" ++ " news") "en" 3]
    ∧ (fetch_news "sports" "in" 3 fallbackOracle).1 =
        (NewsApiResponse.articles { status := some "ok", articles := some [] }).getD [] :=
  ⟨rfl, rfl, by decide,
    (fetch_news_fallback_policy "sports" "in" 3 fallbackOracle
      { status := some "error", articles := none }
      { status := some "ok", articles := some [] } rfl rfl).1.mp (by decide),
    (fetch_news_fallback_policy "sports" "in" 3 fallbackOracle
      { status := some "error", articles := none }
      { status := some "ok", articles := some [] } rfl rfl).2.2 (by decide)⟩

/-- C2: `fetch_news` never raises to its caller.  The `try/except` of lines
41-58 is embedded structurally: `fetch_news` is the `try` block
`fetch_news_try` wrapped in the `except` handler, so its type is a plain
`List Article` — no exception escapes to the caller by construction.  This
theorem states the rest: whenever the `try` block raises, the handler
returns the empty sequence, and every network/parse failure of either HTTP
call (the primary call raising, or the fallback call raising on a run that
reaches it) does make the `try` block raise. -/
theorem fetch_news_never_raises (category region : String) (limit : Int)
    (o : NewsOracle) :
    ((fetch_news_try category region limit o).1.isOk = false →
      (fetch_news category region limit o).1 = [])
    ∧ (o.primary.isOk = false →
      (fetch_news_try category region limit o).1.isOk = false)
    ∧ (primaryGoodB o = false → o.fallback.isOk = false →
      (fetch_news_try category region limit o).1.isOk = false) := by
  refine ⟨?_, ?_, ?_⟩
  · intro h
    cases ht : (fetch_news_try category region limit o).1 with
    | error e => simp [fetch_news, ht]
    | ok l => rw [ht] at h; simp [Except.isOk, Except.toBool] at h
  · intro h
    cases hp : o.primary with
    | error e => simp [fetch_news_try, hp, Except.isOk, Except.toBool]
    | ok d => rw [hp] at h; simp [Except.isOk, Except.toBool] at h
  · intro hg hf
    cases hp : o.primary with
    | error e => simp [fetch_news_try, hp, Except.isOk, Except.toBool]
    | ok d =>
      have hgd : primary_good d = false := by
        simpa [primaryGoodB, hp] using hg
      cases hfo : o.fallback with
      | error e => simp [fetch_news_try, hp, hgd, hfo, Except.isOk, Except.toBool]
      | ok d2 => rw [hfo] at hf; simp [Except.isOk, Except.toBool] at hf

/-- Concrete run of `fetch_news_never_raises`: the primary call times out,
the `try` block fails, and the result is the empty list. -/
def downOracle : NewsOracle :=
  { primary := .error "HTTPSConnectionPool: Read timed out"
    fallback := .error "HTTPSConnectionPool: Read timed out" }

theorem fetch_news_never_raises_witness :
    downOracle.primary.isOk = false
    ∧ primaryGoodB downOracle = false
    ∧ downOracle.fallback.isOk = false
    ∧ (fetch_news_try "general" "in" 5 downOracle).1.isOk = false
    ∧ (fetch_news "general" "in" 5 downOracle).1 = [] :=
  ⟨rfl, rfl, rfl,
    (fetch_news_never_raises "general" "in" 5 downOracle).2.1 rfl,
    (fetch_news_never_raises "general" "in" 5 downOracle).1 rfl⟩

/-- C8: for every article text and language, when the summarization call
fails with error detail `e`, `summarize_article` returns the string
`"⚠️ Error generating summary: " ++ e` — a warning-marker prefix embedding
the error detail — and (being a total function into `String`) propagates no
exception. -/
theorem summarize_article_error_string (article_text : Option String)
    (language : String) (chat : ChatOracle) (e : String)
    (h : chat (summarize_prompt article_text language) = .error e) :
    summarize_article article_text language chat =
      "⚠️ Error generating summary: " ++ e := by
  simp [summarize_article, h]

theorem summarize_article_error_string_witness :
    (fun _ : String => (Except.error "Request timed out" : Except String ChatResponse))
        (summarize_prompt (some "Some article body.") "English") =
      .error "Request timed out"
    ∧ summarize_article (some "Some article body.") "English"
        (fun _ => .error "Request timed out") =
      "⚠️ Error generating summary: " ++ "Request timed out" :=
  ⟨rfl,
    summarize_article_error_string (some "Some article body.") "English"
      (fun _ => .error "Request timed out") "Request timed out" rfl⟩

/-- A `/news` query with an invalid category and a malformed `limit`. -/
def badLimitArgs : NewsArgs :=
  { category := some "crypto", region := none
    language := some "English", limit := some "abc" }

/-- An oracle for runs that never reach (or never need) the external calls. -/
def quietOracle : GetNewsOracle :=
  { news := { primary := .error "down", fallback := .error "down" }
    chat := fun _ => .error "down"
    ids := fun _ => "id-0" }

/-- C3 counterexample: the claim says an invalid category always yields 400,
but `int(request.args.get("limit", 5))` runs at line 111, before the category
check at line 114; with `category=crypto&limit=abc` the `ValueError` is
caught by the handler's broad `except` and surfaces as 500, not 400. -/
theorem get_news_invalid_category_500 :
    "crypto" ∉ valid_categories
    ∧ (get_news badLimitArgs quietOracle).2 = 500
    ∧ (get_news badLimitArgs quietOracle).2 ≠ 400 := by decide

/-- C3 (amended): provided the `limit` parameter is absent or parses as an
integer, any request with a category outside the allow-list gets 400, and
any request with a language outside {English, Tamil, Hindi} gets 400. -/
theorem get_news_invalid_inputs_400 (args : NewsArgs) (o : GetNewsOracle)
    (limit : Int) (hl : parse_limit args = some limit) :
    ((args.category.getD "general") ∉ valid_categories →
      (get_news args o).2 = 400)
    ∧ (langMapHas (args.language.getD "English") = false →
      (get_news args o).2 = 400) := by
  constructor
  · intro hc
    simp [get_news, hl, hc]
  · intro hg
    by_cases hc : (args.category.getD "general") ∈ valid_categories
    · simp [get_news, hl, hc, hg]
    · simp [get_news, hl, hc]

/-- A `/news` query with an invalid category and a well-formed `limit`. -/
def invalidCategoryArgs : NewsArgs :=
  { category := some "crypto", region := none
    language := some "English", limit := some "2" }

theorem get_news_invalid_inputs_400_witness :
    parse_limit invalidCategoryArgs = some 2
    ∧ (invalidCategoryArgs.category.getD "general") ∉ valid_categories
    ∧ (get_news invalidCategoryArgs quietOracle).2 = 400 :=
  ⟨by decide, by decide,
    (get_news_invalid_inputs_400 invalidCategoryArgs quietOracle 2 (by decide)).1
      (by decide)⟩

/-- A valid `/news` query asking for at most 1 article. -/
def overArgs : NewsArgs :=
  { category := some "general", region := some "in"
    language := some "English", limit := some "1" }

def overArticle1 : Article :=
  { title := some (some "Headline one"), description := some "First description"
    content := none, source := some (some { name := some (some "Agency") })
    url := some "https://example.com/1", urlToImage := none
    publishedAt := some "2025-01-01T00:00:00Z" }

def overArticle2 : Article :=
  { title := some (some "Headline two"), description := some "Second description"
    content := none, source := none, url := none, urlToImage := none
    publishedAt := none }

/-- A provider that ignores `pageSize` and returns two articles. -/
def overOracle : GetNewsOracle :=
  { news := { primary := .ok { status := some "ok"
                               articles := some [overArticle1, overArticle2] }
              fallback := .error "unused" }
    chat := fun _ => .error "boom"
    ids := fun _ => "fixed-uuid" }

/-- C4 counterexample: the claim quantifies over every possible provider
response, but `get_news` never truncates — `pageSize` is only a request
parameter.  With `limit=1` and a provider returning 2 articles the response
is 200 with 2 entries, violating `length ≤ limit`. -/
theorem get_news_limit_not_enforced :
    parse_limit overArgs = some 1
    ∧ (get_news overArgs overOracle).2 = 200
    ∧ (get_news overArgs overOracle).1.articlesCount = 2
    ∧ ¬((get_news overArgs overOracle).1.articlesCount ≤ 1) := by decide

/-- The second component of an `enumFrom` entry is an element of the list. -/
theorem snd_mem_of_mem_enumFrom {α : Type} :
    ∀ (l : List α) (n : Nat) (p : Nat × α), p ∈ l.enumFrom n → p.2 ∈ l := by
  intro l
  induction l with
  | nil => intro n p hp; simp [List.enumFrom] at hp
  | cons a rest ih =>
    intro n p hp
    rw [List.enumFrom] at hp
    rcases List.mem_cons.mp hp with h | h
    · subst h; exact List.mem_cons_self a rest
    · exact List.mem_cons_of_mem a (ih (n + 1) p h)

/-- The processing loop succeeds, preserving the count, whenever no article
carries a JSON-null `source` — the only raising step the loop contains. -/
theorem process_articles_ok (language : String) (chat : ChatOracle)
    (ids : Nat → String) :
    ∀ l : List (Nat × Article), (∀ p ∈ l, p.2.source ≠ some none) →
      ∃ qs, process_articles language chat ids l = .ok qs
        ∧ qs.length = l.length := by
  intro l
  induction l with
  | nil => intro h; exact ⟨[], rfl, rfl⟩
  | cons p rest ih =>
    intro h
    obtain ⟨qs, hqs, hlen⟩ := ih (fun q hq => h q (List.mem_cons_of_mem p hq))
    have hp : p.2.source ≠ some none := h p (List.mem_cons_self p rest)
    obtain ⟨v, hv⟩ : ∃ v, source_name p.2 = .ok v := by
      rcases hsv : p.2.source with _ | (_ | sobj)
      · exact ⟨some "Unknown", by simp [source_name, hsv]⟩
      · exact absurd hsv hp
      · exact ⟨sobj.name.getD (some "Unknown"), by simp [source_name, hsv]⟩
    have hpa : ∃ q, process_article language chat ids p.1 p.2 = .ok q := by
      simp only [process_article, hv]
      exact ⟨_, rfl⟩
    obtain ⟨q, hq⟩ := hpa
    exact ⟨q :: qs, by simp [process_articles, hq, hqs], by simp [hlen]⟩

/-- C4 (amended): for every `/news` request with valid category and language
whose `limit` parses, and every provider articles list in which no article
carries a JSON-null `source` object (on those, line 127 raises
`AttributeError` and the handler returns 500), the response is HTTP 200 and
the articles array has exactly the length of the list the news fetcher
returned — so it is bounded by the requested limit exactly when the provider
honours `pageSize`. -/
theorem get_news_valid_200_count (args : NewsArgs) (o : GetNewsOracle)
    (limit : Int) (hl : parse_limit args = some limit)
    (hc : (args.category.getD "general") ∈ valid_categories)
    (hg : langMapHas (args.language.getD "English") = true)
    (hs : ∀ a ∈ (fetch_news (args.category.getD "general")
        (args.region.getD "in") limit o.news).1, a.source ≠ some none) :
    (get_news args o).2 = 200
    ∧ (get_news args o).1.articlesCount =
      (fetch_news (args.category.getD "general") (args.region.getD "in") limit
        o.news).1.length := by
  cases he : (fetch_news (args.category.getD "general") (args.region.getD "in")
      limit o.news).1 with
  | nil => simp [get_news, hl, hc, hg, he, NewsResp.articlesCount]
  | cons a rest =>
    rw [he] at hs
    have hse : ∀ p ∈ (a :: rest).enum, p.2.source ≠ some none := fun p hp =>
      hs p.2 (snd_mem_of_mem_enumFrom (a :: rest) 0 p hp)
    obtain ⟨qs, hqs, hlen⟩ := process_articles_ok (args.language.getD "English")
      o.chat o.ids ((a :: rest).enum) hse
    have hlen2 : qs.length = rest.length + 1 := by
      rw [hlen, List.enum_length]; rfl
    simp [get_news, hl, hc, hg, he, hqs, NewsResp.articlesCount, hlen2]

/-- An article whose `source` key holds JSON null. -/
def nullSourceArticle : Article :=
  { title := some (some "Headline"), description := some "Some description"
    content := none, source := some none, url := none, urlToImage := none
    publishedAt := none }

def nullSourceOracle : GetNewsOracle :=
  { news := { primary := .ok { status := some "ok"
                               articles := some [nullSourceArticle] }
              fallback := .error "unused" }
    chat := fun _ => .error "boom"
    ids := fun _ => "fixed-uuid" }

/-- Why the no-null-source hypothesis of the amended C4 is necessary: a
provider article with `"source": null` makes `article.get("source",
{}).get("name", "Unknown")` (line 127) raise `AttributeError`, and the
handler's broad `except` surfaces it as a 500, not a 200. -/
theorem get_news_null_source_500 :
    (get_news overArgs nullSourceOracle).2 = 500 := by decide

/-- A provider returning a single article, within the requested limit. -/
def oneArticleOracle : GetNewsOracle :=
  { news := { primary := .ok { status := some "ok", articles := some [overArticle2] }
              fallback := .error "unused" }
    chat := fun _ => .error "boom"
    ids := fun _ => "fixed-uuid" }

theorem get_news_valid_200_count_witness :
    parse_limit overArgs = some 1
    ∧ (overArgs.category.getD "general") ∈ valid_categories
    ∧ langMapHas (overArgs.language.getD "English") = true
    ∧ (fetch_news (overArgs.category.getD "general") (overArgs.region.getD "in")
        1 oneArticleOracle.news).1 = [overArticle2]
    ∧ overArticle2.source ≠ some none
    ∧ ((get_news overArgs oneArticleOracle).2 = 200
        ∧ (get_news overArgs oneArticleOracle).1.articlesCount =
          (fetch_news (overArgs.category.getD "general") (overArgs.region.getD "in")
            1 oneArticleOracle.news).1.length) :=
  ⟨by decide, by decide, by decide, rfl, by decide,
    get_news_valid_200_count overArgs oneArticleOracle 1
      (by decide) (by decide) (by decide) (by decide)⟩

/-- A valid `/news` query whose `limit` does not parse as an integer. -/
def emptyBadLimitArgs : NewsArgs :=
  { category := some "general", region := some "in"
    language := some "English", limit := some "five" }

/-- A provider with zero articles for both the primary and fallback query. -/
def emptyProviderOracle : GetNewsOracle :=
  { news := { primary := .ok { status := some "ok", articles := some [] }
              fallback := .ok { status := some "ok", articles := some [] } }
    chat := fun _ => .error "unused"
    ids := fun _ => "fixed-uuid" }

/-- C6 counterexample: with valid category and language but `limit=five`,
the `int(...)` at line 111 raises before `fetch_news` is ever called, and the
response is 500 — so "never a 400 or 500" does not hold as stated even when
the provider has zero articles for both queries. -/
theorem get_news_zero_articles_but_500 :
    emptyProviderOracle.news.primary =
      .ok { status := some "ok", articles := some [] }
    ∧ emptyProviderOracle.news.fallback =
      .ok { status := some "ok", articles := some [] }
    ∧ "general" ∈ valid_categories
    ∧ langMapHas "English" = true
    ∧ (get_news emptyBadLimitArgs emptyProviderOracle).2 = 500 := by decide

/-- C6 (amended): whenever the news provider yields zero articles for both
the primary and the fallback query, a `/news` request with valid category and
language whose `limit` parameter is absent or parses as an integer returns
HTTP 200 with the `{"message": "No news found", "articles": []}` body — not a
400 or 500. -/
theorem get_news_no_provider_articles_200 (args : NewsArgs) (o : GetNewsOracle)
    (limit : Int) (dp df : NewsApiResponse)
    (hl : parse_limit args = some limit)
    (hc : (args.category.getD "general") ∈ valid_categories)
    (hg : langMapHas (args.language.getD "English") = true)
    (hp : o.news.primary = .ok dp) (hpa : dp.articles.getD [] = [])
    (hf : o.news.fallback = .ok df) (hfa : df.articles.getD [] = []) :
    get_news args o = (.noNews, 200) := by
  have hgd : primary_good dp = false := by
    cases ha : dp.articles with
    | none => simp [primary_good, ha]
    | some l =>
      rw [ha] at hpa
      simp only [Option.getD_some] at hpa
      simp [primary_good, ha, hpa]
  have hres : (fetch_news (args.category.getD "general") (args.region.getD "in")
      limit o.news).1 = [] := by
    simp [fetch_news, fetch_news_try, hp, hgd, hf, hfa]
  simp [get_news, hl, hc, hg, hres]

/-- A valid `/news` query with the `limit` parameter absent (default 5). -/
def emptyOkArgs : NewsArgs :=
  { category := some "general", region := some "in"
    language := some "English", limit := none }

theorem get_news_no_provider_articles_200_witness :
    parse_limit emptyOkArgs = some 5
    ∧ (emptyOkArgs.category.getD "general") ∈ valid_categories
    ∧ langMapHas (emptyOkArgs.language.getD "English") = true
    ∧ emptyProviderOracle.news.primary =
        .ok { status := some "ok", articles := some [] }
    ∧ emptyProviderOracle.news.fallback =
        .ok { status := some "ok", articles := some [] }
    ∧ get_news emptyOkArgs emptyProviderOracle = (.noNews, 200) :=
  ⟨by decide, by decide, by decide, rfl, rfl,
    get_news_no_provider_articles_200 emptyOkArgs emptyProviderOracle 5
      { status := some "ok", articles := some [] }
      { status := some "ok", articles := some [] }
      (by decide) (by decide) (by decide) rfl (by decide) rfl (by decide)⟩

/-- An article record with no keys at all (the empty JSON object). -/
def bareArticle : Article := ⟨none, none, none, none, none, none, none⟩

/-- C5 counterexample: the two content fallback chains are not identical on
an article missing the `title` key with falsy `description` and `content`:
`get_news` (line 126-128) reads `article.get("title", "Untitled")` and falls
back to `"Untitled"`, while `daily_briefing` (line 199) subscripts
`a["title"]` and raises `KeyError`. -/
theorem briefing_content_keyerror :
    briefing_content bareArticle = .error "KeyError: title"
    ∧ news_content bareArticle = some "Untitled"
    ∧ briefing_content bareArticle ≠ .ok (news_content bareArticle) := by decide

/-- C5 (amended): for every article record that contains the `title` key, the
briefing handler's summarizer input follows exactly the listing handler's
fallback chain (description, then content body, then title); when the key is
absent the handlers diverge (`"Untitled"` default versus an uncaught
`KeyError`). -/
theorem briefing_content_matches_listing (a : Article)
    (h : a.title.isSome = true) :
    briefing_content a = .ok (news_content a) := by
  obtain ⟨t, ht⟩ := Option.isSome_iff_exists.mp h
  by_cases hd : pyTruthy a.description = true
  · simp [briefing_content, news_content, pyOr, hd]
  · simp only [Bool.not_eq_true] at hd
    by_cases hcn : pyTruthy a.content = true
    · simp [briefing_content, news_content, pyOr, hd, hcn]
    · simp only [Bool.not_eq_true] at hcn
      simp [briefing_content, news_content, pyOr, hd, hcn, ht]

/-- An article whose description is the empty string (falsy) and whose title
key is present, exercising the full chain down to the title. -/
def titledArticle : Article :=
  { title := some (some "Launch day"), description := some ""
    content := none, source := none, url := none, urlToImage := none
    publishedAt := none }

theorem briefing_content_matches_listing_witness :
    titledArticle.title.isSome = true
    ∧ briefing_content titledArticle = .ok (news_content titledArticle) :=
  ⟨rfl, briefing_content_matches_listing titledArticle rfl⟩

/-- C7: for every `/briefing` request for which the news fetcher returns zero
articles, the handler answers 400 with the `"No articles available for
briefing"` error and the trace holds no `generate_tts` call. -/
theorem daily_briefing_no_articles_400 (data : BriefBody) (o : BriefOracle)
    (h : (fetch_news (data.category.getD "general") (data.region.getD "in")
      (data.limit.getD 5) o.news).1 = []) :
    (daily_briefing data o).1 =
      .ok (.err "No articles available for briefing", 400)
    ∧ (daily_briefing data o).2.ttsCalls = [] := by
  simp [daily_briefing, h]

/-- A `/briefing` body with every key absent, against dead upstreams. -/
def emptyBriefBody : BriefBody :=
  { category := none, region := none, language := none, limit := none }

def downBriefOracle : BriefOracle :=
  { news := { primary := .error "down", fallback := .error "down" }
    chat := fun _ => .error "down"
    tts := fun _ _ => none }

theorem daily_briefing_no_articles_400_witness :
    (fetch_news (emptyBriefBody.category.getD "general")
      (emptyBriefBody.region.getD "in") (emptyBriefBody.limit.getD 5)
      downBriefOracle.news).1 = []
    ∧ ((daily_briefing emptyBriefBody downBriefOracle).1 =
        .ok (.err "No articles available for briefing", 400)
      ∧ (daily_briefing emptyBriefBody downBriefOracle).2.ttsCalls = []) :=
  ⟨rfl, daily_briefing_no_articles_400 emptyBriefBody downBriefOracle rfl⟩

/-- The cleanup callback always leaves its own path deleted. -/
theorem not_mem_cleanup_close (p : String) (fs : List String) :
    p ∉ cleanup_close p fs := by
  simp [cleanup_close, List.mem_filter]

/-- C9: for every `/tts` run and every `/briefing` run that answers with an
audio file, running the response's registered `call_on_close` callbacks (the
framework fires them once the body has been fully transmitted, on success and
transport failure alike) leaves the temporary file absent from any file
system state; the callback swallows deletion failures (`except: pass`),
which `cleanup_close` models by leaving a missing file untouched. -/
theorem audio_cleanup_deletes_file (tdata : TtsBody) (tts : TtsOracle)
    (bdata : BriefBody) (bo : BriefOracle) (r rb : AudioResponse) (code : Nat)
    (fs fsb : List String)
    (h1 : (get_tts tdata tts).1 = .audio r)
    (h2 : (daily_briefing bdata bo).1 = .ok (.audio rb, code)) :
    r.path ∉ r.onClose fs ∧ rb.path ∉ rb.onClose fsb := by
  constructor
  · revert h1
    unfold get_tts
    dsimp only
    split
    · intro h1; exact absurd h1 (by simp)
    · split
      · intro h1; exact absurd h1 (by simp)
      · intro h1
        injection h1 with h
        subst h
        exact not_mem_cleanup_close _ fs
  · revert h2
    unfold daily_briefing
    dsimp only
    split
    · intro h2
      injection h2 with h
      injection h with ha hb
      exact absurd ha (by simp)
    · split
      · intro h2; exact absurd h2 (by simp)
      · split
        · intro h2; exact absurd h2 (by simp)
        · intro h2
          injection h2 with h
          injection h with ha hb
          injection ha with hr
          subst hr
          exact not_mem_cleanup_close _ fsb

/-- A `/tts` request with text and a supported language. -/
def ttsReqBody : TtsBody :=
  { text := some "Hello world", language := some "Tamil" }

def ttsFileOracle : TtsOracle := fun _ _ => some "/tmp/tmpabc123.mp3"

/-- The audio response `get_tts ttsReqBody ttsFileOracle` serves. -/
def ttsAudioResp : AudioResponse :=
  { path := "/tmp/tmpabc123.mp3"
    headerName := "X-Audio-File"
    headerValue := os_path_basename "/tmp/tmpabc123.mp3"
    onClose := cleanup_close "/tmp/tmpabc123.mp3" }

/-- A `/briefing` request that reaches synthesis: one article, summarizer
degraded to its inline error string, synthesis succeeding. -/
def briefReqBody : BriefBody :=
  { category := some "technology", region := some "in"
    language := some "Hindi", limit := some 1 }

def briefRunOracle : BriefOracle :=
  { news := { primary := .ok { status := some "ok", articles := some [overArticle2] }
              fallback := .error "unused" }
    chat := fun _ => .error "api down"
    tts := fun _ _ => some "/tmp/tmpbrief42.mp3" }

/-- The audio response that briefing run serves. -/
def briefAudioResp : AudioResponse :=
  { path := "/tmp/tmpbrief42.mp3"
    headerName := "X-Audio-Type"
    headerValue := "daily-briefing"
    onClose := cleanup_close "/tmp/tmpbrief42.mp3" }

theorem audio_cleanup_deletes_file_witness :
    (get_tts ttsReqBody ttsFileOracle).1 = .audio ttsAudioResp
    ∧ (daily_briefing briefReqBody briefRunOracle).1 = .ok (.audio briefAudioResp, 200)
    ∧ (ttsAudioResp.path ∉ ttsAudioResp.onClose ["/tmp/tmpabc123.mp3", "/tmp/keep.mp3"]
        ∧ briefAudioResp.path ∉ briefAudioResp.onClose ["/tmp/tmpbrief42.mp3"]) :=
  ⟨rfl, rfl,
    audio_cleanup_deletes_file ttsReqBody ttsFileOracle briefReqBody briefRunOracle
      ttsAudioResp briefAudioResp 200
      ["/tmp/tmpabc123.mp3", "/tmp/keep.mp3"] ["/tmp/tmpbrief42.mp3"] rfl rfl⟩

/-- The HTTP status of a `/briefing` outcome, `none` when an uncaught
exception escaped to the framework. -/
def briefStatus : Except String (BriefResp × Nat) → Option Nat
  | .error _ => none
  | .ok (_, code) => some code

/-- A language outside `LANG_MAP` resolves to the default. -/
theorem langMapGet_of_not_has (l d : String) (h : langMapHas l = false) :
    langMapGet l d = d := by
  unfold langMapHas at h
  unfold langMapGet
  cases hf : LANG_MAP.find? (fun p => p.1 == l) with
  | none => rfl
  | some p => rw [hf] at h; simp at h

/-- C10: `daily_briefing` validates nothing: the category string of the
request body is forwarded unchanged to `fetch_news` (no allow-list check), a
language outside {English, Tamil, Hindi} makes every `generate_tts` call use
the code `"en"` (`LANG_MAP.get(language, "en")`, line 208) instead of
producing a 400, and the only 400 the handler ever returns is the
no-articles error. -/
theorem daily_briefing_no_validation (data : BriefBody) (o : BriefOracle) :
    (daily_briefing data o).2.fetchCategory = data.category.getD "general"
    ∧ (langMapHas (data.language.getD "English") = false →
        ((daily_briefing data o).2.ttsCalls.all (fun c => c.2 == "en")) = true)
    ∧ (briefStatus (daily_briefing data o).1 = some 400 →
        (daily_briefing data o).1 =
          .ok (.err "No articles available for briefing", 400)) := by
  refine ⟨?_, ?_, ?_⟩
  · unfold daily_briefing
    dsimp only
    split
    · rfl
    · split <;> [rfl; skip]
      split <;> rfl
  · intro hl
    have hg := langMapGet_of_not_has (data.language.getD "English") "en" hl
    unfold daily_briefing
    dsimp only
    split
    · rfl
    · split
      · rfl
      · split <;> simp [hg]
  · intro h400
    revert h400
    unfold daily_briefing
    dsimp only
    split
    · intro _; rfl
    · split
      · intro h400; exact absurd h400 (by simp [briefStatus])
      · split <;> intro h400 <;> exact absurd h400 (by simp [briefStatus])

/-- A `/briefing` body with an unchecked category and an unsupported
language, on a run that reaches synthesis. -/
def oddBriefBody : BriefBody :=
  { category := some "astrology", region := some "in"
    language := some "Klingon", limit := some 1 }

theorem daily_briefing_no_validation_witness :
    langMapHas (oddBriefBody.language.getD "English") = false
    ∧ (daily_briefing oddBriefBody briefRunOracle).2.fetchCategory =
        oddBriefBody.category.getD "general"
    ∧ ((daily_briefing oddBriefBody briefRunOracle).2.ttsCalls.all
        (fun c => c.2 == "en")) = true :=
  ⟨by decide,
    (daily_briefing_no_validation oddBriefBody briefRunOracle).1,
    (daily_briefing_no_validation oddBriefBody briefRunOracle).2.1 (by decide)⟩

end NewsWhizz
